import Mathlib

/-!
Verification of the mutation-validation pipeline of the racks inventory
manager (`mainapp/mixins.py`, class `ChecksMixin` and the API mixins that
call it).

The check functions in `mixins.py` delegate a few queries to service
classes (`UserCheckService`, `UniqueCheckService`, `DeviceCheckService`,
`RepoService`).  Those collaborators are embedded here as fields of an
`Env` record (an occupancy/metadata snapshot); the service predicates whose
code is not part of the embedded sources are modelled from the spec and
carry a doc comment saying so.
-/

namespace Racks

/-- The Django model classes that the checks dispatch on
(Region, Department, Site, Building, Room, Rack, Device). -/
inductive ModelT
  | region
  | department
  | site
  | building
  | room
  | rack
  | device
deriving DecidableEq

/-- `mainapp.utils.Result`: a two-field outcome value, `success` flag plus
`message`, produced by every check. -/
structure Result where
  success : Bool
  message : String
deriving DecidableEq

/-- A closed integer interval of rack units, `{first .. last}`. -/
structure UnitInterval where
  first : Int
  last : Int
deriving DecidableEq

/-- The part of the request payload dictionary that the device checks read
via `data.get`: each key may be absent (`none`). -/
structure Payload where
  first_unit : Option Int
  last_unit : Option Int
  frontside_location : Option Bool
deriving DecidableEq

/-- The external collaborators consumed by the checks, as an immutable
snapshot: department ownership, sibling-name queries, rack capacity,
current placements per rack and mounting face, and the device-to-rack and
device-to-old-units lookups used on the update path. -/
structure Env where
  departments : Nat → ModelT → List String
  get_unique_object_names_list : Nat → Option ModelT → List String
  rack_amount : Nat → Int
  placements : Nat → Bool → List UnitInterval
  get_device_rack_id : Nat → Nat
  get_old_units : Nat → UnitInterval

/-- The arguments one `get_checks` invocation receives, together with the
mixin's own `model` and `model_name` properties (`selfModel`,
`model_name`), which `_check_user` and `_check_unique` read from `self`. -/
structure Ctx where
  user_groups : List String
  pk : Nat
  data : Payload
  fk : Option Nat
  model : Option ModelT
  fk_model : Option ModelT
  instance_name : Option String
  key_name : Option String
  selfModel : ModelT
  model_name : String

/-- `ChecksMixin.permission_alert`. -/
def permission_alert : String := "Permission alert, changes are prohibited"

/-- `ChecksMixin.units_exist_message`. -/
def units_exist_message : String := "There are no such units in this rack"

/-- `ChecksMixin.units_busy_message`. -/
def units_busy_message : String := "These units are busy"

/-- The message of `_check_unique`'s failure Result,
`f"A x7bself.model_namex7d with the same name already exists"`. -/
def duplicate_name_message (model_name : String) : String :=
  "A " ++ model_name ++ " with the same name already exists"

/-- Modelled from the spec: `UserCheckService.check_for_groups`
(`mainapp/services.py`, not among the embedded sources) returns whether the
user's group-name set intersects the set of departments owning the target
object. -/
def check_for_groups (env : Env) (user_groups : List String) (pk : Nat)
    (model : ModelT) : Bool :=
  user_groups.any (fun g => decide (g ∈ env.departments pk model))

/-- `ChecksMixin._check_user`: failure with `permission_alert` when
`check_for_groups` is false, success otherwise. -/
def check_user (env : Env) (ctx : Ctx) : Result :=
  if check_for_groups env ctx.user_groups ctx.pk ctx.selfModel = false then
    Result.mk false permission_alert
  else
    Result.mk true "Success"

/-- `ChecksMixin._check_unique`: when the candidate `key_name` differs from
`instance_name`, query sibling names under `(pk, model)` if no foreign key
is given and under `(fk, fk_model)` otherwise, and fail when the candidate
is among them; otherwise succeed.  `UniqueCheckService
.get_unique_object_names_list` is kept abstract in `Env`. -/
def check_unique (env : Env) (pk : Nat) (fk : Option Nat)
    (model : Option ModelT) (fk_model : Option ModelT) (model_name : String)
    (instance_name key_name : Option String) : Result :=
  if instance_name ≠ key_name then
    let names_list :=
      match fk with
      | none => env.get_unique_object_names_list pk model
      | some f => env.get_unique_object_names_list f fk_model
    if (match key_name with
        | some k => decide (k ∈ names_list)
        | none => false) then
      Result.mk false (duplicate_name_message model_name)
    else
      Result.mk true "Success"
  else
    Result.mk true "Success"

/-- Modelled from the spec: the overlap test between the closed intervals
`[a,b]` and `[c,d]` is `a <= d && c <= b`
(used by `DeviceCheckService.check_unit_busy`, `mainapp/services.py`, not
among the embedded sources). -/
def overlaps (x y : UnitInterval) : Bool :=
  decide (x.first ≤ y.last) && decide (y.first ≤ x.last)

/-- Modelled from the spec: `DeviceCheckService.get_new_units`
(`mainapp/services.py`, not among the embedded sources) packages the
proposed interval; per the spec the allocator may assume `first ≤ last`. -/
def get_new_units (first_unit last_unit : Int) : UnitInterval :=
  UnitInterval.mk first_unit last_unit

/-- Modelled from the spec: `DeviceCheckService.check_unit_exist`
(`mainapp/services.py`, not among the embedded sources) answers true when
the proposal must be rejected, i.e. when some proposed unit lies outside
`[1, rack.amount]`. -/
def check_unit_exist (env : Env) (units : UnitInterval) (pk : Nat) : Bool :=
  decide (units.first < 1) || decide (env.rack_amount pk < units.last)

/-- Modelled from the spec: `DeviceCheckService.check_unit_busy`
(`mainapp/services.py`, not among the embedded sources) answers true when
the proposed interval intersects some placement on the same face of the
same rack, other than the updating device's own prior placement
(`old_units`, absent on the add path). -/
def check_unit_busy (env : Env) (frontside_location : Bool) (pk : Nat)
    (new_units : UnitInterval) (old_units : Option UnitInterval) : Bool :=
  ((env.placements pk frontside_location).filter
      (fun p => decide (some p ≠ old_units))).any
    (fun p => overlaps new_units p)

/-- `ChecksMixin._check_device_for_add`: require `first_unit`, `last_unit`
and `frontside_location` in the payload, then test unit existence, then
unit conflicts with an empty exclusion set (`old_units=None`). -/
def check_device_for_add (env : Env) (pk : Nat) (data : Payload) : Result :=
  match data.first_unit with
  | none => Result.mk false "Missing required data - first_unit"
  | some first_unit =>
    match data.last_unit with
    | none => Result.mk false "Missing required data - last_unit"
    | some last_unit =>
      match data.frontside_location with
      | none => Result.mk false "Missing required data - frontside_location"
      | some frontside_location =>
        let new_units := get_new_units first_unit last_unit
        if check_unit_exist env new_units pk then
          Result.mk false units_exist_message
        else if check_unit_busy env frontside_location pk new_units none then
          Result.mk false units_busy_message
        else
          Result.mk true "Success"

/-- `ChecksMixin._check_device_for_update`: like the add check, but the
rack is looked up from the device's primary key and the busy test excludes
the device's own prior units (`old_units`). -/
def check_device_for_update (env : Env) (pk : Nat) (data : Payload) :
    Result :=
  match data.first_unit with
  | none => Result.mk false "Missing required data - first_unit"
  | some first_unit =>
    match data.last_unit with
    | none => Result.mk false "Missing required data - last_unit"
    | some last_unit =>
      match data.frontside_location with
      | none => Result.mk false "Missing required data - frontside_location"
      | some frontside_location =>
        let rack_id := env.get_device_rack_id pk
        let old_units := env.get_old_units pk
        let new_units := get_new_units first_unit last_unit
        if check_unit_exist env new_units rack_id then
          Result.mk false units_exist_message
        else if check_unit_busy env frontside_location rack_id new_units
            (some old_units) then
          Result.mk false units_busy_message
        else
          Result.mk true "Success"

/-- The `ValueError` message of `ChecksMixin.get_checks` (the adjacent
Python string literals concatenate without separators). -/
def value_error_message : String :=
  "check: str must becheck_user|check_unique|check_device_for_add|check_device_for_update,other checks dont implemented"

/-- The dispatch table of `ChecksMixin.get_checks`: a known token maps to
its check's Result, an unknown one to `none`. -/
def dispatch (env : Env) (ctx : Ctx) (check : String) : Option Result :=
  if check = "check_user" then
    some (check_user env ctx)
  else if check = "check_unique" then
    some (check_unique env ctx.pk ctx.fk ctx.model ctx.fk_model
      ctx.model_name ctx.instance_name ctx.key_name)
  else if check = "check_device_for_add" then
    some (check_device_for_add env ctx.pk ctx.data)
  else if check = "check_device_for_update" then
    some (check_device_for_update env ctx.pk ctx.data)
  else
    none

/-- `ChecksMixin.get_checks`: collect one Result per token of the check
list in order; an unknown token raises `ValueError`, modelled by the
`Except.error` branch, which discards the collected Results. -/
def get_checks (env : Env) (ctx : Ctx) :
    List String → Except String (List Result)
  | [] => Except.ok []
  | check :: rest =>
    match dispatch env ctx check with
    | some r => (get_checks env ctx rest).map (fun rs => r :: rs)
    | none => Except.error value_error_message

/-- `ChecksMixin.get_checks_result`: return the first Result whose
`success` is false, and a fresh `Result(True, 'Success')` when none is. -/
def get_checks_result : List Result → Result
  | [] => Result.mk true "Success"
  | r :: rest => if r.success then get_checks_result rest else r

/-- The check context built by `BaseApiDeleteMixin.delete`, which calls
`get_checks(request, pk, data, model=self.model)`: `fk`, `fk_model`,
`instance_name` and `key_name` keep their `None` defaults. -/
def delete_ctx (user_groups : List String) (pk : Nat) (data : Payload)
    (selfModel : ModelT) (model_name : String) : Ctx :=
  Ctx.mk user_groups pk data none (some selfModel) none none none
    selfModel model_name

/-- An empty payload: none of the device fields present. -/
def payload0 : Payload := Payload.mk none none none

/-- A concrete snapshot for evaluating the checks: department `DeptA` owns
everything, every sibling scope holds the name `Paris`, every rack has
capacity 42 with one placement `[3,4]` per face, and every device sits in
rack 1 with prior units `[3,4]`. -/
def env0 : Env :=
  Env.mk (fun _ _ => ["DeptA"]) (fun _ _ => ["Paris"]) (fun _ => 42)
    (fun _ _ => [UnitInterval.mk 3 4]) (fun _ => 1)
    (fun _ => UnitInterval.mk 3 4)

/-- A concrete context with an anonymous user and empty payload. -/
def ctx0 : Ctx :=
  Ctx.mk [] 1 payload0 none none none none none ModelT.rack "Rack"

/-- A concrete context whose uniqueness check fails under `env0`: the
candidate name `Paris` is already among the siblings. -/
def ctx4 : Ctx :=
  Ctx.mk [] 1 payload0 none (some ModelT.site) none none (some "Paris")
    ModelT.site "Site"

/-- `ctx4` with `first_unit` present in the payload (so the device add
check reaches its second missing-field test). -/
def ctx4b : Ctx :=
  Ctx.mk [] 1 (Payload.mk (some 1) none none) none (some ModelT.site) none
    none (some "Paris") ModelT.site "Site"

/-- `ctx0` for a user who belongs to the owning department `DeptA`. -/
def ctx9 : Ctx :=
  Ctx.mk ["DeptA"] 1 payload0 none none none none none ModelT.rack "Rack"

/-- A snapshot where device 7 sits in rack 1 (capacity 42) at prior units
`[40,42]`, the only front placement of that rack. -/
def env3 : Env :=
  Env.mk (fun _ _ => []) (fun _ _ => []) (fun _ => 42)
    (fun _ _ => [UnitInterval.mk 40 42]) (fun _ => 1)
    (fun _ => UnitInterval.mk 40 42)

lemma get_checks_map_dispatch (env : Env) (ctx : Ctx) :
    ∀ (checks : List String) (rs : List Result),
      get_checks env ctx checks = Except.ok rs →
      checks.map (dispatch env ctx) = rs.map some := by
  intro checks
  induction checks with
  | nil =>
    intro rs h
    simp only [get_checks] at h
    cases h
    simp
  | cons c cs ih =>
    intro rs h
    simp only [get_checks] at h
    cases hd : dispatch env ctx c with
    | none =>
      rw [hd] at h
      simp at h
    | some r =>
      rw [hd] at h
      cases hrec : get_checks env ctx cs with
      | error e =>
        rw [hrec] at h
        simp [Except.map] at h
      | ok rs2 =>
        rw [hrec] at h
        simp only [Except.map] at h
        cases h
        simp [hd, ih rs2 hrec]

lemma get_checks_result_all_success :
    ∀ rs : List Result, (∀ r ∈ rs, r.success = true) →
      get_checks_result rs = Result.mk true "Success" := by
  intro rs
  induction rs with
  | nil => intro _; rfl
  | cons r rest ih =>
    intro h
    have hr : r.success = true := h r (by simp)
    simp only [get_checks_result, hr, if_true]
    exact ih (fun x hx => h x (by simp [hx]))

lemma get_checks_result_first_failure :
    ∀ (l : List Result) (r : Result) (rest : List Result),
      (∀ x ∈ l, x.success = true) → r.success = false →
      get_checks_result (l ++ r :: rest) = r := by
  intro l
  induction l with
  | nil =>
    intro r rest _ hr
    simp [get_checks_result, hr]
  | cons x l ih =>
    intro r rest h hr
    have hx : x.success = true := h x (by simp)
    simp only [List.cons_append, get_checks_result, hx, if_true]
    exact ih r rest (fun y hy => h y (by simp [hy])) hr

/-- C1: for every check list and context, `get_checks` produces one Result
per token in list order (pointwise, the dispatch of the i-th token), and
`get_checks_result` returns the first Result whose success flag is false;
when every Result succeeds (including the empty list) it returns the
canonical `Result(True, 'Success')`. -/
theorem claim_C1 :
    (∀ (env : Env) (ctx : Ctx) (checks : List String) (rs : List Result),
        get_checks env ctx checks = Except.ok rs →
        checks.map (dispatch env ctx) = rs.map some)
    ∧ (∀ rs : List Result, (∀ r ∈ rs, r.success = true) →
        get_checks_result rs = Result.mk true "Success")
    ∧ (∀ (l : List Result) (r : Result) (rest : List Result),
        (∀ x ∈ l, x.success = true) → r.success = false →
        get_checks_result (l ++ r :: rest) = r) :=
  ⟨get_checks_map_dispatch, get_checks_result_all_success,
    get_checks_result_first_failure⟩

/-- Witness for C1 at a concrete snapshot: a one-token pipeline whose
Result list is its dispatch image, an all-success reduction, and a
first-failure reduction. -/
theorem claim_C1_witness :
    (["check_user"].map (dispatch env0 ctx0) =
        [Result.mk false permission_alert].map some)
    ∧ get_checks_result [Result.mk true "Success"] = Result.mk true "Success"
    ∧ get_checks_result ([Result.mk true "Success"] ++
        Result.mk false permission_alert :: [Result.mk true "Success"]) =
        Result.mk false permission_alert :=
  ⟨claim_C1.1 env0 ctx0 ["check_user"] [Result.mk false permission_alert]
      (by rfl),
    claim_C1.2.1 [Result.mk true "Success"] (by decide),
    claim_C1.2.2 [Result.mk true "Success"] (Result.mk false permission_alert)
      [Result.mk true "Success"] (by decide) (by decide)⟩

lemma check_unit_busy_none (env : Env) (fr : Bool) (rack : Nat)
    (u : UnitInterval) :
    check_unit_busy env fr rack u none =
      (env.placements rack fr).any (fun p => overlaps u p) := by
  simp [check_unit_busy]

/-- C2: the conflict predicate used by the unit-busy check on closed
intervals `[a,b]`, `[c,d]` of the same rack and face is
`a <= d && c <= b`; adjacent intervals `[1,2]` and `[3,4]` do not
conflict, while `[1,3]` and `[3,4]` do. -/
theorem claim_C2 :
    (∀ u p : UnitInterval,
        overlaps u p =
          (decide (u.first ≤ p.last) && decide (p.first ≤ u.last)))
    ∧ (∀ (env : Env) (fr : Bool) (rack : Nat) (u : UnitInterval),
        check_unit_busy env fr rack u none =
          (env.placements rack fr).any (fun p => overlaps u p))
    ∧ (∀ (env : Env) (fr : Bool) (rack : Nat),
        env.placements rack fr = [UnitInterval.mk 3 4] →
          check_unit_busy env fr rack (UnitInterval.mk 1 2) none = false
          ∧ check_unit_busy env fr rack (UnitInterval.mk 1 3) none = true) := by
  refine ⟨fun u p => rfl, check_unit_busy_none, ?_⟩
  intro env fr rack h
  rw [check_unit_busy_none, check_unit_busy_none, h]
  constructor <;> decide

/-- Witness for C2 at the concrete snapshot `env0`, whose racks hold the
single front placement `[3,4]`. -/
theorem claim_C2_witness :
    check_unit_busy env0 true 1 (UnitInterval.mk 1 2) none = false
    ∧ check_unit_busy env0 true 1 (UnitInterval.mk 1 3) none = true :=
  claim_C2.2.2 env0 true 1 rfl

/-- C6: a payload missing `first_unit`, `last_unit` or
`frontside_location` makes both device checks fail with a Result naming
the missing field, tested in that order, and the Result does not depend on
the snapshot (rack capacity, occupancy, lookups), since it is the same for
every `env`. -/
theorem claim_C6 :
    ∀ (env : Env) (pk : Nat) (data : Payload),
      (data.first_unit = none →
        check_device_for_add env pk data =
            Result.mk false "Missing required data - first_unit"
          ∧ check_device_for_update env pk data =
            Result.mk false "Missing required data - first_unit")
      ∧ (∀ f : Int, data.first_unit = some f → data.last_unit = none →
        check_device_for_add env pk data =
            Result.mk false "Missing required data - last_unit"
          ∧ check_device_for_update env pk data =
            Result.mk false "Missing required data - last_unit")
      ∧ (∀ f l : Int, data.first_unit = some f → data.last_unit = some l →
        data.frontside_location = none →
        check_device_for_add env pk data =
            Result.mk false "Missing required data - frontside_location"
          ∧ check_device_for_update env pk data =
            Result.mk false "Missing required data - frontside_location") := by
  intro env pk data
  obtain ⟨fu, lu, fl⟩ := data
  refine ⟨?_, ?_, ?_⟩
  · intro h
    cases h
    exact ⟨rfl, rfl⟩
  · intro f h hl
    cases h
    cases hl
    exact ⟨rfl, rfl⟩
  · intro f l h hl hf
    cases h
    cases hl
    cases hf
    exact ⟨rfl, rfl⟩

/-- Witness for C6: the empty payload fails both checks on `first_unit`
under the concrete snapshot. -/
theorem claim_C6_witness :
    check_device_for_add env0 1 payload0 =
        Result.mk false "Missing required data - first_unit"
      ∧ check_device_for_update env0 1 payload0 =
        Result.mk false "Missing required data - first_unit" :=
  (claim_C6 env0 1 payload0).1 rfl

/-- C7: with all payload fields present, the add check fails with the
units-out-of-range message when some unit of `[f,l]` lies outside
`[1, rack.amount]` — regardless of occupancy, so that test is decided
before the conflict test — and otherwise fails with the units-busy
message exactly when the interval overlaps some placement on the same
face, succeeding when it overlaps none. -/
theorem claim_C7 :
    ∀ (env : Env) (pk : Nat) (f l : Int) (fr : Bool) (data : Payload),
      data = Payload.mk (some f) (some l) (some fr) →
      ((f < 1 ∨ env.rack_amount pk < l) →
          check_device_for_add env pk data =
            Result.mk false units_exist_message)
      ∧ (1 ≤ f → l ≤ env.rack_amount pk →
          ((∃ p ∈ env.placements pk fr,
              overlaps (UnitInterval.mk f l) p = true) →
            check_device_for_add env pk data =
              Result.mk false units_busy_message)
          ∧ ((∀ p ∈ env.placements pk fr,
              overlaps (UnitInterval.mk f l) p = false) →
            check_device_for_add env pk data = Result.mk true "Success")) := by
  intro env pk f l fr data hdata
  subst hdata
  constructor
  · intro h
    have hex : check_unit_exist env (UnitInterval.mk f l) pk = true := by
      simp only [check_unit_exist, Bool.or_eq_true, decide_eq_true_eq]
      exact h
    simp [check_device_for_add, get_new_units, hex]
  · intro h1 h2
    have hex : check_unit_exist env (UnitInterval.mk f l) pk = false := by
      simp only [check_unit_exist, Bool.or_eq_false_iff, decide_eq_false_iff_not]
      omega
    constructor
    · intro hb
      have hbusy : check_unit_busy env fr pk (UnitInterval.mk f l) none =
          true := by
        rw [check_unit_busy_none, List.any_eq_true]
        exact hb
      simp [check_device_for_add, get_new_units, hex, hbusy]
    · intro hb
      have hbusy : check_unit_busy env fr pk (UnitInterval.mk f l) none =
          false := by
        rw [check_unit_busy_none, List.any_eq_false]
        intro p hp
        simp [hb p hp]
      simp [check_device_for_add, get_new_units, hex, hbusy]

/-- Witness for C7: under `env0` (capacity 42, front placement `[3,4]`),
the proposal `[40,45]` fails as out of range, `[2,5]` fails as busy, and
`[10,12]` succeeds. -/
theorem claim_C7_witness :
    check_device_for_add env0 1 (Payload.mk (some 40) (some 45) (some true)) =
        Result.mk false units_exist_message
    ∧ check_device_for_add env0 1 (Payload.mk (some 2) (some 5) (some true)) =
        Result.mk false units_busy_message
    ∧ check_device_for_add env0 1
          (Payload.mk (some 10) (some 12) (some true)) =
        Result.mk true "Success" :=
  ⟨(claim_C7 env0 1 40 45 true _ rfl).1 (Or.inr (by decide)),
    ((claim_C7 env0 1 2 5 true _ rfl).2 (by decide) (by decide)).1
      ⟨UnitInterval.mk 3 4, by decide, by decide⟩,
    ((claim_C7 env0 1 10 12 true _ rfl).2 (by decide) (by decide)).2
      (by decide)⟩

/-- C9: the permission check fails with the permission-alert message
exactly when no group name of the user is among the departments owning the
target (per the modelled group-membership predicate), and succeeds
otherwise; a user with no matching group is denied whatever the rest of
the context holds. -/
theorem claim_C9 :
    ∀ (env : Env) (ctx : Ctx),
      ((∀ g ∈ ctx.user_groups, g ∉ env.departments ctx.pk ctx.selfModel) →
          check_user env ctx = Result.mk false permission_alert)
      ∧ ((∃ g ∈ ctx.user_groups, g ∈ env.departments ctx.pk ctx.selfModel) →
          check_user env ctx = Result.mk true "Success") := by
  intro env ctx
  constructor
  · intro h
    have hg : check_for_groups env ctx.user_groups ctx.pk ctx.selfModel =
        false := by
      simp only [check_for_groups, List.any_eq_false, decide_eq_true_eq]
      exact h
    simp [check_user, hg]
  · intro h
    have hg : check_for_groups env ctx.user_groups ctx.pk ctx.selfModel =
        true := by
      simp only [check_for_groups, List.any_eq_true, decide_eq_true_eq]
      exact h
    simp [check_user, hg]

/-- Witness for C9: under `env0` the anonymous user of `ctx0` is denied
and the `DeptA` member of `ctx9` is allowed. -/
theorem claim_C9_witness :
    check_user env0 ctx0 = Result.mk false permission_alert
    ∧ check_user env0 ctx9 = Result.mk true "Success" :=
  ⟨(claim_C9 env0 ctx0).1 (by decide),
    (claim_C9 env0 ctx9).2 ⟨"DeptA", by decide, by decide⟩⟩

/-- C8: the uniqueness check succeeds whenever the candidate name equals
the current instance name, for every snapshot (so without consulting
sibling names); when they differ it queries the sibling names under
`(pk, model)` without a foreign key and under `(fk, fk_model)` with one,
failing with the duplicate-name Result exactly when the candidate is in
the returned name set. -/
theorem claim_C8 :
    ∀ (env : Env) (pk : Nat) (fk : Option Nat) (model fkm : Option ModelT)
      (mname : String) (iname kname : Option String),
      (iname = kname →
        check_unique env pk fk model fkm mname iname kname =
          Result.mk true "Success")
      ∧ (iname ≠ kname → fk = none →
        check_unique env pk fk model fkm mname iname kname =
          (if kname ∈
              (env.get_unique_object_names_list pk model).map Option.some
           then Result.mk false (duplicate_name_message mname)
           else Result.mk true "Success"))
      ∧ (∀ fval : Nat, iname ≠ kname → fk = some fval →
        check_unique env pk fk model fkm mname iname kname =
          (if kname ∈
              (env.get_unique_object_names_list fval fkm).map Option.some
           then Result.mk false (duplicate_name_message mname)
           else Result.mk true "Success")) := by
  intro env pk fk model fkm mname iname kname
  refine ⟨?_, ?_, ?_⟩
  · intro h
    simp [check_unique, h]
  · intro hne hfk
    subst hfk
    cases kname with
    | none => simp [check_unique, hne]
    | some k =>
      by_cases hk : k ∈ env.get_unique_object_names_list pk model
      · simp [check_unique, hne, hk]
      · simp [check_unique, hne, hk]
  · intro fval hne hfk
    subst hfk
    cases kname with
    | none => simp [check_unique, hne]
    | some k =>
      by_cases hk : k ∈ env.get_unique_object_names_list fval fkm
      · simp [check_unique, hne, hk]
      · simp [check_unique, hne, hk]

/-- Witness for C8 under `env0` (sibling names always `["Paris"]`): an
unchanged name passes, a rename to `Paris` resolves through `(pk, model)`
without a foreign key and through `(fk, fk_model)` with one. -/
theorem claim_C8_witness :
    check_unique env0 1 none (some ModelT.site) none "Site" (some "Paris")
        (some "Paris") = Result.mk true "Success"
    ∧ check_unique env0 1 none (some ModelT.site) none "Site" none
        (some "Paris") =
      (if some "Paris" ∈
          (env0.get_unique_object_names_list 1 (some ModelT.site)).map
            Option.some
       then Result.mk false (duplicate_name_message "Site")
       else Result.mk true "Success")
    ∧ check_unique env0 1 (some 2) none (some ModelT.room) "Room" none
        (some "Paris") =
      (if some "Paris" ∈
          (env0.get_unique_object_names_list 2 (some ModelT.room)).map
            Option.some
       then Result.mk false (duplicate_name_message "Room")
       else Result.mk true "Success") :=
  ⟨(claim_C8 env0 1 none (some ModelT.site) none "Site" (some "Paris")
      (some "Paris")).1 rfl,
    (claim_C8 env0 1 none (some ModelT.site) none "Site" none
      (some "Paris")).2.1 (by decide) rfl,
    (claim_C8 env0 1 (some 2) none (some ModelT.room) "Room" none
      (some "Paris")).2.2 2 (by decide) rfl⟩

/-- C5: a check list containing a token other than the four implemented
ones makes `get_checks` raise the `ValueError` (the `Except.error` branch)
instead of returning Results, and a list of only those four tokens never
raises it. -/
theorem claim_C5 :
    ∀ (env : Env) (ctx : Ctx) (checks : List String),
      ((∃ c ∈ checks, c ≠ "check_user" ∧ c ≠ "check_unique" ∧
          c ≠ "check_device_for_add" ∧ c ≠ "check_device_for_update") →
        get_checks env ctx checks = Except.error value_error_message)
      ∧ ((∀ c ∈ checks, c = "check_user" ∨ c = "check_unique" ∨
          c = "check_device_for_add" ∨ c = "check_device_for_update") →
        ∃ rs, get_checks env ctx checks = Except.ok rs) := by
  intro env ctx checks
  induction checks with
  | nil =>
    constructor
    · intro h
      simp at h
    · intro _
      exact ⟨[], rfl⟩
  | cons c cs ih =>
    constructor
    · rintro ⟨x, hx, hx1, hx2, hx3, hx4⟩
      rcases List.mem_cons.mp hx with rfl | hmem
      · have hd : dispatch env ctx x = none := by
          simp [dispatch, hx1, hx2, hx3, hx4]
        simp [get_checks, hd]
      · have herr := ih.1 ⟨x, hmem, hx1, hx2, hx3, hx4⟩
        cases hd : dispatch env ctx c with
        | none => simp [get_checks, hd]
        | some r => simp [get_checks, hd, herr, Except.map]
    · intro h
      have hc := h c (by simp)
      have hd : ∃ r, dispatch env ctx c = some r := by
        rcases hc with rfl | rfl | rfl | rfl <;> exact ⟨_, rfl⟩
      obtain ⟨r, hr⟩ := hd
      obtain ⟨rs, hrs⟩ := ih.2 (fun x hx => h x (by simp [hx]))
      exact ⟨r :: rs, by simp [get_checks, hr, hrs, Except.map]⟩

/-- Witness for C5: a list holding the unknown token `bogus` raises, a
list of known tokens does not. -/
theorem claim_C5_witness :
    get_checks env0 ctx0 ["check_user", "bogus"] =
        Except.error value_error_message
    ∧ ∃ rs, get_checks env0 ctx0 ["check_user", "check_unique"] =
        Except.ok rs :=
  ⟨(claim_C5 env0 ctx0 ["check_user", "bogus"]).1
      ⟨"bogus", by decide, by decide, by decide, by decide, by decide⟩,
    (claim_C5 env0 ctx0 ["check_user", "check_unique"]).2 (by decide)⟩

/-- C4 counterexample: under `env0`, the contexts `ctx4` and `ctx4b`
differ only in the device payload and both make `check_unique` fail with
the same duplicate-name Result, yet the Result lists collected by
`get_checks` differ in their second component — the second check is
evaluated (its Result, computed from the payload, is collected), only the
reduction discards it. -/
theorem claim_C4_counterexample :
    get_checks env0 ctx4 ["check_unique", "check_device_for_add"] =
      Except.ok [Result.mk false (duplicate_name_message "Site"),
        Result.mk false "Missing required data - first_unit"]
    ∧ get_checks env0 ctx4b ["check_unique", "check_device_for_add"] =
      Except.ok [Result.mk false (duplicate_name_message "Site"),
        Result.mk false "Missing required data - last_unit"]
    ∧ get_checks_result [Result.mk false (duplicate_name_message "Site"),
        Result.mk false "Missing required data - first_unit"] =
      Result.mk false (duplicate_name_message "Site") :=
  ⟨rfl, rfl, rfl⟩

/-- C4 (amended): on `["check_unique", "check_device_for_add"]` with a
failing first check, `get_checks` still evaluates and collects the second
check's Result, but the final reduced Result is exactly the first check's
failure, so the second is never reported. -/
theorem claim_C4 :
    ∀ (env : Env) (ctx : Ctx),
      (check_unique env ctx.pk ctx.fk ctx.model ctx.fk_model ctx.model_name
          ctx.instance_name ctx.key_name).success = false →
      get_checks env ctx ["check_unique", "check_device_for_add"] =
        Except.ok [check_unique env ctx.pk ctx.fk ctx.model ctx.fk_model
            ctx.model_name ctx.instance_name ctx.key_name,
          check_device_for_add env ctx.pk ctx.data]
      ∧ get_checks_result
          [check_unique env ctx.pk ctx.fk ctx.model ctx.fk_model
              ctx.model_name ctx.instance_name ctx.key_name,
            check_device_for_add env ctx.pk ctx.data] =
        check_unique env ctx.pk ctx.fk ctx.model ctx.fk_model ctx.model_name
          ctx.instance_name ctx.key_name := by
  intro env ctx hfail
  constructor
  · rfl
  · simp [get_checks_result, hfail]

/-- Witness for C4 at `env0` and `ctx4`, whose uniqueness check fails. -/
theorem claim_C4_witness :
    get_checks env0 ctx4 ["check_unique", "check_device_for_add"] =
      Except.ok [check_unique env0 ctx4.pk ctx4.fk ctx4.model ctx4.fk_model
          ctx4.model_name ctx4.instance_name ctx4.key_name,
        check_device_for_add env0 ctx4.pk ctx4.data]
    ∧ get_checks_result
        [check_unique env0 ctx4.pk ctx4.fk ctx4.model ctx4.fk_model
            ctx4.model_name ctx4.instance_name ctx4.key_name,
          check_device_for_add env0 ctx4.pk ctx4.data] =
      check_unique env0 ctx4.pk ctx4.fk ctx4.model ctx4.fk_model
        ctx4.model_name ctx4.instance_name ctx4.key_name :=
  claim_C4 env0 ctx4 (by rfl)

lemma check_unit_busy_self_only (env : Env) (fr : Bool) (rack : Nat)
    (u old : UnitInterval)
    (h : ∀ p ∈ env.placements rack fr, overlaps u p = true → p = old) :
    check_unit_busy env fr rack u (some old) = false := by
  simp only [check_unit_busy, List.any_eq_false]
  intro p hp
  rw [List.mem_filter] at hp
  obtain ⟨hp1, hp2⟩ := hp
  simp only [ne_eq, decide_not, Bool.not_eq_eq_eq_not, Bool.not_true,
    decide_eq_false_iff_not, Option.some_inj] at hp2
  intro ho
  exact hp2 (h p hp1 ho)

/-- C3 counterexample: under `env3`, device 7 previously held `[40,42]` —
the only placement of rack 1's front face — and an update to `[41,45]`
(all fields present, overlapping only the device's own prior placement)
still fails, because the interval exceeds the rack's 42 units. -/
theorem claim_C3_counterexample :
    check_device_for_update env3 7
        (Payload.mk (some 41) (some 45) (some true)) =
      Result.mk false units_exist_message
    ∧ (∀ p ∈ env3.placements (env3.get_device_rack_id 7) true,
        overlaps (UnitInterval.mk 41 45) p = true →
          p = env3.get_old_units 7)
    ∧ Result.mk false units_exist_message ≠ Result.mk true "Success" :=
  ⟨rfl, by decide, by decide⟩

/-- C3 (amended): the add check passes no exclusion to the busy test
(`old_units=None`) and the update check excludes exactly the device's
prior units fetched by its primary key, so every update whose new interval
lies within `[1, rack.amount]` and overlaps only the device's own prior
placement on that rack and face succeeds. -/
theorem claim_C3 :
    (∀ (env : Env) (pk : Nat) (f l : Int) (fr : Bool),
        1 ≤ f → l ≤ env.rack_amount pk →
        check_device_for_add env pk (Payload.mk (some f) (some l) (some fr)) =
          (if check_unit_busy env fr pk (UnitInterval.mk f l) none = true
           then Result.mk false units_busy_message
           else Result.mk true "Success"))
    ∧ (∀ (env : Env) (pk : Nat) (f l : Int) (fr : Bool),
        1 ≤ f → l ≤ env.rack_amount (env.get_device_rack_id pk) →
        check_device_for_update env pk
            (Payload.mk (some f) (some l) (some fr)) =
          (if check_unit_busy env fr (env.get_device_rack_id pk)
                (UnitInterval.mk f l) (some (env.get_old_units pk)) = true
           then Result.mk false units_busy_message
           else Result.mk true "Success"))
    ∧ (∀ (env : Env) (pk : Nat) (f l : Int) (fr : Bool),
        1 ≤ f → l ≤ env.rack_amount (env.get_device_rack_id pk) →
        (∀ p ∈ env.placements (env.get_device_rack_id pk) fr,
            overlaps (UnitInterval.mk f l) p = true →
              p = env.get_old_units pk) →
        check_device_for_update env pk
            (Payload.mk (some f) (some l) (some fr)) =
          Result.mk true "Success") := by
  refine ⟨?_, ?_, ?_⟩
  · intro env pk f l fr h1 h2
    have hex : check_unit_exist env (UnitInterval.mk f l) pk = false := by
      simp only [check_unit_exist, Bool.or_eq_false_iff,
        decide_eq_false_iff_not]
      omega
    simp only [check_device_for_add, get_new_units, hex, Bool.false_eq_true,
      if_false]
  · intro env pk f l fr h1 h2
    have hex : check_unit_exist env (UnitInterval.mk f l)
        (env.get_device_rack_id pk) = false := by
      simp only [check_unit_exist, Bool.or_eq_false_iff,
        decide_eq_false_iff_not]
      omega
    simp only [check_device_for_update, get_new_units, hex,
      Bool.false_eq_true, if_false]
  · intro env pk f l fr h1 h2 hself
    have hex : check_unit_exist env (UnitInterval.mk f l)
        (env.get_device_rack_id pk) = false := by
      simp only [check_unit_exist, Bool.or_eq_false_iff,
        decide_eq_false_iff_not]
      omega
    have hbusy := check_unit_busy_self_only env fr
      (env.get_device_rack_id pk) (UnitInterval.mk f l)
      (env.get_old_units pk) hself
    simp [check_device_for_update, get_new_units, hex, hbusy]

/-- Witness for C3: under `env0` (capacity 42, device 7 in rack 1 with
prior units `[3,4]`, the face's only placement), extending the device to
`[3,5]` succeeds, and the unconditional characterizations hold at
`[10,12]`. -/
theorem claim_C3_witness :
    check_device_for_add env0 1 (Payload.mk (some 10) (some 12) (some false)) =
      (if check_unit_busy env0 false 1 (UnitInterval.mk 10 12) none = true
       then Result.mk false units_busy_message
       else Result.mk true "Success")
    ∧ check_device_for_update env0 7
        (Payload.mk (some 10) (some 12) (some false)) =
      (if check_unit_busy env0 false (env0.get_device_rack_id 7)
            (UnitInterval.mk 10 12) (some (env0.get_old_units 7)) = true
       then Result.mk false units_busy_message
       else Result.mk true "Success")
    ∧ check_device_for_update env0 7
        (Payload.mk (some 3) (some 5) (some true)) =
      Result.mk true "Success" :=
  ⟨claim_C3.1 env0 1 10 12 false (by decide) (by decide),
    claim_C3.2.1 env0 7 10 12 false (by decide) (by decide),
    claim_C3.2.2 env0 7 3 5 true (by decide) (by decide) (by decide)⟩

lemma get_checks_filter_token (env : Env) (ctx : Ctx) (bad : String)
    (hbad : dispatch env ctx bad = some (Result.mk true "Success")) :
    ∀ (checks : List String) (rs : List Result),
      get_checks env ctx checks = Except.ok rs →
      ∃ rs', get_checks env ctx
            (checks.filter (fun c => decide (c ≠ bad))) = Except.ok rs'
        ∧ get_checks_result rs' = get_checks_result rs := by
  intro checks
  induction checks with
  | nil =>
    intro rs h
    simp only [get_checks] at h
    cases h
    exact ⟨[], rfl, rfl⟩
  | cons c cs ih =>
    intro rs h
    simp only [get_checks] at h
    cases hd : dispatch env ctx c with
    | none =>
      rw [hd] at h
      simp at h
    | some r =>
      rw [hd] at h
      cases hrec : get_checks env ctx cs with
      | error e =>
        rw [hrec] at h
        simp [Except.map] at h
      | ok rs2 =>
        rw [hrec] at h
        simp only [Except.map] at h
        cases h
        obtain ⟨rs', hok, hres⟩ := ih rs2 hrec
        by_cases hc : c = bad
        · subst hc
          have hr : r = Result.mk true "Success" := by
            rw [hd] at hbad
            cases hbad
            rfl
          subst hr
          refine ⟨rs', ?_, ?_⟩
          · rw [List.filter_cons_of_neg (by simp)]
            exact hok
          · rw [hres]
            simp [get_checks_result]
        · refine ⟨r :: rs', ?_, ?_⟩
          · rw [List.filter_cons_of_pos (by simp [hc])]
            simp only [get_checks, hd]
            rw [hok]
            rfl
          · by_cases hs : r.success = true <;>
              simp [get_checks_result, hs, hres]

/-- C10: with both the current instance name and the candidate name absent
— as in the check context built by the delete path, which passes neither —
the uniqueness check succeeds unconditionally for every snapshot (so
without querying sibling names), and removing every `check_unique` token
from a delete-path pipeline leaves the final reduced Result unchanged, so
a configured `check_unique` can never cause the mutation to be rejected. -/
theorem claim_C10 :
    (∀ (env : Env) (pk : Nat) (fk : Option Nat) (model fkm : Option ModelT)
        (mname : String),
      check_unique env pk fk model fkm mname none none =
        Result.mk true "Success")
    ∧ (∀ (env : Env) (groups : List String) (pk : Nat) (data : Payload)
        (m : ModelT) (mname : String) (checks : List String)
        (rs : List Result),
      get_checks env (delete_ctx groups pk data m mname) checks =
          Except.ok rs →
      ∃ rs', get_checks env (delete_ctx groups pk data m mname)
            (checks.filter (fun c => decide (c ≠ "check_unique"))) =
          Except.ok rs'
        ∧ get_checks_result rs' = get_checks_result rs) := by
  constructor
  · intro env pk fk model fkm mname
    simp [check_unique]
  · intro env groups pk data m mname
    exact get_checks_filter_token env (delete_ctx groups pk data m mname)
      "check_unique" rfl

/-- Witness for C10: a delete-path pipeline `["check_user",
"check_unique"]` under `env0` reduces to the same final Result once the
`check_unique` token is filtered out, and the nameless uniqueness check
itself succeeds. -/
theorem claim_C10_witness :
    check_unique env0 1 none (some ModelT.site) none "Site" none none =
      Result.mk true "Success"
    ∧ ∃ rs', get_checks env0 (delete_ctx [] 1 payload0 ModelT.site "Site")
          (["check_user", "check_unique"].filter
            (fun c => decide (c ≠ "check_unique"))) = Except.ok rs'
        ∧ get_checks_result rs' =
          get_checks_result [Result.mk false permission_alert,
            Result.mk true "Success"] :=
  ⟨claim_C10.1 env0 1 none (some ModelT.site) none "Site",
    claim_C10.2 env0 [] 1 payload0 ModelT.site "Site"
      ["check_user", "check_unique"]
      [Result.mk false permission_alert, Result.mk true "Success"] (by rfl)⟩

end Racks
